import Mathlib

/-!
Shallow embedding of the jpg-converter-backend request handlers
(src/api/views.py and src/api/urls.py).

External collaborators (pdf2image.convert_from_bytes, img2pdf.convert,
PIL image saving, the Poppler installer subprocess) are modelled as
oracles supplied as parameters; the filesystem and the process-wide
POPPLER_PATH environment variable are modelled as explicit state.
Handlers additionally return the trace of external conversion calls they
made, so that claims about retry counts and call options can be stated.
-/

namespace JpgConverter

/-- Raw byte strings (Python bytes), abstracted as lists of byte values. -/
abbrev Bytes := List Nat

/-- A rasterized page as produced by pdf2image; an abstract identifier. -/
abbrev Page := Nat

/-- A Python exception as observed by the handlers: either a KeyError
(the only exception type the PDF handler distinguishes, views.py line 217)
or any other exception; the payload is the str(e) text used in bodies. -/
inductive PyErr where
  | keyError (s : String)
  | other (s : String)
deriving Repr, DecidableEq

/-- The str(e) text of an exception. -/
def PyErr.str : PyErr → String
  | .keyError s => s
  | .other s => s

deriving instance DecidableEq for Except

/-- An HTTP response body: a plain-text message, raw image or document
bytes, or a zip archive holding named entries in write order. -/
inductive RespBody where
  | text (s : String)
  | bytes (b : Bytes)
  | zip (entries : List (String × Bytes))
deriving Repr, DecidableEq

/-- A Django HttpResponse as the handlers build it: status, body, and the
explicitly set content type and Content-Disposition header, if any. -/
structure Response where
  status : Nat
  body : RespBody
  contentType : Option String := none
  contentDisposition : Option String := none
deriving Repr, DecidableEq

/-- Keyword options passed to pdf2image.convert_from_bytes
(views.py lines 133-141 and 152-158). -/
structure ConvOptions where
  fmt : String
  use_pdftocairo : Bool
  timeout : Option Nat
  poppler_path : Option String
deriving Repr, DecidableEq

/-- Process-wide state: the POPPLER_PATH entry of os.environ and the set
of filesystem paths that exist. -/
structure Sys where
  env : Option String
  fs : List String
deriving Repr, DecidableEq

/-- The pdf2image and PIL calls the PDF handler makes, as oracles.
Saving an image can raise, like any PIL call; each saver takes the page
and the numeric option used at the call site (compress_level, quality). -/
structure PdfLib where
  convert_from_bytes : Bytes → ConvOptions → Except PyErr (List Page)
  savePNG : Page → Nat → Except PyErr Bytes
  saveJPEG : Page → Nat → Except PyErr Bytes

/-- The img2pdf.convert call of the JPG handler, as an oracle. -/
structure ImgLib where
  img2pdf_convert : List Bytes → Except PyErr Bytes

/-- A multipart request to PdfToJpgView: request.FILES (name to content
bytes) and request.POST (name to value) as association lists. -/
structure PdfRequest where
  files : List (String × Bytes)
  post : List (String × String)

/-- A multipart request to JpgToPdfView: the files uploaded under the
images field, in upload order, already read to bytes. -/
structure JpgRequest where
  images : List Bytes

/-- Dictionary lookup in an association list (request.FILES, request.POST). -/
def lookupField {α : Type} (l : List (String × α)) (k : String) : Option α :=
  (l.find? (fun kv => kv.1 == k)).map (fun kv => kv.2)

/-- Python str.lower(), as used at views.py lines 97, 179 and 196: each
character is lowercased individually (String.toLower does exactly this,
via String.map; the character-list form keeps it kernel-evaluable). -/
def pyLower (s : String) : String := String.mk (s.data.map Char.toLower)

/-- Python truthiness of an optional string: None and the empty string are
falsy (the tests at views.py lines 15, 113, 126, 139 and 157). -/
def strTruthy : Option String → Bool
  | none => false
  | some s => !(s.isEmpty)

/-- The conditional kwarg insertion at views.py lines 139-140 and 157-158:
the poppler_path option is passed only when the local variable is truthy. -/
def truthyOpt (o : Option String) : Option String :=
  if strTruthy o then o else none

/-- The candidate Poppler directories checked at module import
(views.py lines 20-25), in order, under the backend base directory. -/
def possible_paths (base : String) : List String :=
  [ base ++ "/poppler/poppler-23.11.0/Library/bin"
  , base ++ "/poppler/Library/bin"
  , base ++ "/poppler/bin"
  , base ++ "/poppler-23.11.0/Library/bin" ]

/-- The path of the Poppler installer script (views.py line 41). -/
def install_script (base : String) : String :=
  base ++ "/install_poppler.py"

/-- The outcome of the synchronous installer subprocess
(views.py lines 46-47). -/
structure RunResult where
  returncode : Int
  stdout : String
  stderr : String
deriving Repr, DecidableEq

/-- The candidate loop at views.py lines 28-32: returns the first
candidate that exists, together with the list of candidates examined
(the loop stops at the first hit). -/
def scanPaths (fs : List String) : List String → Option String × List String
  | [] => (none, [])
  | p :: rest =>
    if fs.contains p then (some p, [p])
    else
      let r := scanPaths fs rest
      (r.1, p :: r.2)

/-- Index of the first occurrence of a needle in a haystack, as character
lists; models Python substring search and re.search of a literal. -/
def findSub (needle : List Char) : List Char → Option Nat
  | [] => if needle.isEmpty then some 0 else none
  | c :: rest =>
    if needle.isPrefixOf (c :: rest) then some 0
    else (findSub needle rest).map (fun n => n + 1)

/-- Python substring membership test (the in operator at line 50). -/
def containsSub (hay needle : String) : Bool :=
  (findSub needle.data hay.data).isSome

/-- The marker tested with the in operator at views.py line 50. -/
def popplerMarker : String := "Poppler installed at:"

/-- Models re.search of the pattern at views.py line 53: the capture group
is the text after the leftmost occurrence of the marker plus a space, up
to the end of the line (dot does not match a newline). -/
def extractPopplerPath (out : String) : Option String :=
  let pat := "Poppler installed at: ".data
  match findSub pat out.data with
  | none => none
  | some i =>
      some (String.mk ((out.data.drop (i + pat.length)).takeWhile
        (fun c => !(c == '\n'))))

/-- The outcome of the module-level Poppler setup: the final POPPLER_PATH
value, whether the installer subprocess was launched, and which candidate
directories were examined. -/
structure SetupResult where
  env : Option String
  installerRan : Bool
  checked : List String
deriving Repr, DecidableEq

/-- The module-level Poppler setup, views.py lines 15-66. The run argument
is the result the installer subprocess would produce if launched. -/
def moduleSetup (base : String) (fs : List String) (env0 : Option String)
    (run : RunResult) : SetupResult :=
  if strTruthy env0 then { env := env0, installerRan := false, checked := [] }
  else
    let scan := scanPaths fs (possible_paths base)
    match scan.1 with
    | some p => { env := some p, installerRan := false, checked := scan.2 }
    | none =>
      if fs.contains (install_script base) then
        if run.returncode == 0 && containsSub run.stdout popplerMarker then
          match extractPopplerPath run.stdout with
          | some p => { env := some p, installerRan := true, checked := scan.2 }
          | none => { env := env0, installerRan := true, checked := scan.2 }
        else { env := env0, installerRan := true, checked := scan.2 }
      else { env := env0, installerRan := false, checked := scan.2 }

/-- JpgToPdfView.post, views.py lines 71-85. Returns the response and the
trace of img2pdf.convert calls (each trace element is the ordered list of
image byte strings passed to the call). -/
def JpgToPdfView_post (lib : ImgLib) (req : JpgRequest) :
    Response × List (List Bytes) :=
  if req.images.isEmpty then
    ({ status := 400, body := .text "No images provided" }, [])
  else
    let image_data := req.images
    match lib.img2pdf_convert image_data with
    | .ok pdf_bytes =>
        ({ status := 200, body := .bytes pdf_bytes,
           contentType := some "application/pdf",
           contentDisposition := some "attachment; filename=\"converted.pdf\"" },
         [image_data])
    | .error e =>
        ({ status := 500, body := .text ("Conversion failed: " ++ e.str) },
         [image_data])

/-- The two candidate directories re-probed inside the PDF handler when
POPPLER_PATH is not set (views.py lines 115-118). -/
def probe_paths (base : String) : List String :=
  [ base ++ "/poppler/poppler-23.11.0/Library/bin"
  , base ++ "/poppler/Library/bin" ]

/-- Views.py lines 109-123: read POPPLER_PATH, and when it is falsy probe
the two candidates, setting os.environ on a hit. Returns the local
poppler_path variable and the updated process state. -/
def resolvePoppler (base : String) (sys : Sys) : Option String × Sys :=
  let poppler_path := sys.env
  if strTruthy poppler_path then (poppler_path, sys)
  else
    match (scanPaths sys.fs (probe_paths base)).1 with
    | some p => (some p, { sys with env := some p })
    | none => (poppler_path, sys)

/-- Views.py lines 126-128: clear the local poppler_path variable when it
is truthy but points to a missing path. Only the local is cleared; the
os.environ entry is not touched. -/
def verifyPoppler (sys : Sys) (poppler_path : Option String) : Option String :=
  if strTruthy poppler_path && !(sys.fs.contains (poppler_path.getD "")) then none
  else poppler_path

/-- The kwargs of the first conversion attempt (views.py lines 133-141). -/
def firstOptions (format : String) (poppler_path : Option String) : ConvOptions :=
  { fmt := format, use_pdftocairo := true, timeout := some 60,
    poppler_path := truthyOpt poppler_path }

/-- The kwargs of the second conversion attempt (views.py lines 152-158);
no timeout is passed there. -/
def secondOptions (format : String) (poppler_path : Option String) : ConvOptions :=
  { fmt := format, use_pdftocairo := false, timeout := none,
    poppler_path := truthyOpt poppler_path }

/-- The nested try blocks at views.py lines 131-168: attempt one with
pdftocairo and the timeout, and on any exception attempt two without
pdftocairo; an error result means both attempts raised. Also returns the
trace of convert_from_bytes calls made. -/
def rasterize (lib : PdfLib) (pdf_content : Bytes) (format : String)
    (poppler_path : Option String) : Except Unit (List Page) × List ConvOptions :=
  let opts1 := firstOptions format poppler_path
  match lib.convert_from_bytes pdf_content opts1 with
  | .ok images => (.ok images, [opts1])
  | .error _first_error =>
    let opts2 := secondOptions format poppler_path
    match lib.convert_from_bytes pdf_content opts2 with
    | .ok images => (.ok images, [opts1, opts2])
    | .error _second_error => (.error (), [opts1, opts2])

/-- The body of the 500 returned when both attempts raise
(views.py lines 165-168). -/
def corruptMsg : String :=
  "PDF conversion failed. The PDF might be corrupted, password-protected, or Poppler is not properly installed."

/-- The body of the 500 returned when conversion yields no pages
(views.py line 171). -/
def noImagesMsg : String :=
  "Failed to extract images from PDF (no images extracted)"

/-- The body of the 400 returned by the KeyError handler
(views.py line 219). -/
def noPdfMsg : String := "No PDF file uploaded"

/-- Per-image encoding, views.py lines 179-184 and 196-199: PNG with
compress_level 1 when the (lowercased again) format is png, otherwise
JPEG with quality 95. -/
def encodeImage (lib : PdfLib) (format : String) (img : Page) :
    Except PyErr Bytes :=
  if pyLower format == "png" then lib.savePNG img 1 else lib.saveJPEG img 95

/-- The zip loop at views.py lines 193-201: encode each page and write it
as the entry page_{index+1}.{format}; an encoding exception escapes. -/
def zipEntries (lib : PdfLib) (format : String) (i : Nat) :
    List Page → Except PyErr (List (String × Bytes))
  | [] => .ok []
  | img :: rest =>
    match encodeImage lib format img with
    | .error e => .error e
    | .ok b =>
      match zipEntries lib format (i + 1) rest with
      | .error e => .error e
      | .ok es => .ok (("page_" ++ toString (i + 1) ++ "." ++ format, b) :: es)

/-- Views.py lines 170-215: the zero-page 500, or the packaging of the
pages as a single image or a zip archive with its headers. -/
def packageImages (lib : PdfLib) (format : String) (images : List Page) :
    Except PyErr Response :=
  match images with
  | [] => .ok { status := 500, body := .text noImagesMsg }
  | [img] =>
    match encodeImage lib format img with
    | .error e => .error e
    | .ok b =>
      .ok { status := 200, body := .bytes b,
            contentType := some ("image/" ++ format),
            contentDisposition :=
              some ("attachment; filename=\"converted." ++ format ++ "\"") }
  | _ =>
    match zipEntries lib format 0 images with
    | .error e => .error e
    | .ok es =>
      .ok { status := 200, body := .zip es,
            contentType := some "application/zip",
            contentDisposition := some "attachment; filename=\"converted.zip\"" }

/-- The try-block body of PdfToJpgView.post (views.py lines 95-215):
the produced response or escaped exception, the updated process state,
and the trace of convert_from_bytes calls. -/
def pdfPostBody (base : String) (lib : PdfLib) (sys : Sys) (req : PdfRequest) :
    Except PyErr Response × Sys × List ConvOptions :=
  match lookupField req.files "pdf" with
  | none => (.error (.keyError "pdf"), sys, [])
  | some pdf_content =>
    let format := pyLower ((lookupField req.post "format").getD "jpg")
    let r := resolvePoppler base sys
    let poppler_path := verifyPoppler r.2 r.1
    let conv := rasterize lib pdf_content format poppler_path
    match conv.1 with
    | .ok images => (packageImages lib format images, r.2, conv.2)
    | .error _ =>
        (.ok { status := 500, body := .text corruptMsg }, r.2, conv.2)

/-- PdfToJpgView.post with its exception handlers (views.py lines 94 and
217-222): a KeyError anywhere in the body becomes the 400, any other
exception becomes the generic 500. -/
def PdfToJpgView_post (base : String) (lib : PdfLib) (sys : Sys)
    (req : PdfRequest) : Response × Sys × List ConvOptions :=
  let r := pdfPostBody base lib sys req
  match r.1 with
  | .ok resp => (resp, r.2)
  | .error (.keyError _) => ({ status := 400, body := .text noPdfMsg }, r.2)
  | .error (.other m) =>
      ({ status := 500, body := .text ("Conversion failed: " ++ m) }, r.2)

/-- PdfToJpgView.head, views.py lines 90-92: a bare 200 (empty body), no
state change and no conversion call. -/
def PdfToJpgView_head (sys : Sys) (_req : PdfRequest) :
    Response × Sys × List ConvOptions :=
  ({ status := 200, body := .text "" }, sys, [])

/-- The health_check view, urls.py lines 6-7. -/
def health_check : Response := { status := 200, body := .text "OK" }

/-! Concrete oracle instances and requests, used to evaluate the handlers
on closed inputs. The byte lists produced by the savers are arbitrary tags
recording which encoder ran and with which option. -/

/-- A library whose rasterization returns the given pages and whose
encoders succeed. -/
def pdfLibOk (pages : List Page) : PdfLib :=
  { convert_from_bytes := fun _ _ => .ok pages
  , savePNG := fun img lvl => .ok [0, img, lvl]
  , saveJPEG := fun img q => .ok [1, img, q] }

/-- A library whose rasterization always raises the given exception. -/
def pdfLibFail (e : PyErr) : PdfLib :=
  { convert_from_bytes := fun _ _ => .error e
  , savePNG := fun img lvl => .ok [0, img, lvl]
  , saveJPEG := fun img q => .ok [1, img, q] }

/-- A library rasterizing to the given pages but whose JPEG encoder
raises a KeyError. -/
def pdfLibSaveKeyErr (pages : List Page) : PdfLib :=
  { convert_from_bytes := fun _ _ => .ok pages
  , savePNG := fun img lvl => .ok [0, img, lvl]
  , saveJPEG := fun _ _ => .error (.keyError "encode") }

/-- A process state with nothing set and an empty filesystem. -/
def sysEmpty : Sys := { env := none, fs := [] }

/-- A process state whose cached POPPLER_PATH points to a missing path. -/
def sysStale : Sys := { env := some "stale", fs := [] }

/-- A request uploading one document under pdf, no format field. -/
def reqPdf : PdfRequest := { files := [("pdf", [9])], post := [] }

/-- A request uploading one document and asking for PNG (upper case). -/
def reqPng : PdfRequest := { files := [("pdf", [9])], post := [("format", "PNG")] }

/-- A request uploading one document and asking for an arbitrary format. -/
def reqWebp : PdfRequest := { files := [("pdf", [9])], post := [("format", "WEBP")] }

/-- A request whose multipart body lacks the pdf field. -/
def reqNoPdf : PdfRequest := { files := [("data", [9])], post := [] }

/-- An image-assembly library that concatenates its inputs behind a tag. -/
def imgLibOk : ImgLib := { img2pdf_convert := fun d => .ok (0 :: d.flatten) }

/-- An image-assembly library that always raises. -/
def imgLibFail : ImgLib := { img2pdf_convert := fun _ => .error (.other "boom") }

/-- A request with no uploaded images. -/
def jpgReqEmpty : JpgRequest := { images := [] }

/-- A request with two uploaded images. -/
def jpgReqTwo : JpgRequest := { images := [[1], [2]] }

/-- An installer run that prints the path marker and succeeds. -/
def runOk : RunResult :=
  { returncode := 0, stdout := "Poppler installed at: /opt/poppler/bin\ndone",
    stderr := "" }

/-- An installer run that fails. -/
def runFail : RunResult := { returncode := 1, stdout := "", stderr := "err" }

/-! Helper lemmas. -/

/-- Lowercasing a character is idempotent: the result is never in the
upper-case latin range. -/
theorem char_toLower_idem (c : Char) : c.toLower.toLower = c.toLower := by
  unfold Char.toLower
  by_cases h : c.toNat ≥ 65 ∧ c.toNat ≤ 90
  · rw [if_pos h]
    have hv : (c.toNat + 32).isValidChar := Or.inl (by omega)
    have ht : (Char.ofNat (c.toNat + 32)).toNat = c.toNat + 32 := by
      rw [Char.ofNat, dif_pos hv]
      simp [Char.toNat, Char.ofNatAux, UInt32.toNat, BitVec.toNat_ofNatLt]
    rw [ht, if_neg (by omega)]
  · rw [if_neg h, if_neg h]

/-- Lowercasing a string is idempotent. -/
theorem pyLower_idem (s : String) : pyLower (pyLower s) = pyLower s := by
  simp only [pyLower, List.map_map]
  congr 1
  apply List.map_congr_left
  intro c _
  exact char_toLower_idem c

/-- On an already-lowercased format the encoder branch reads off the
underlying PIL save calls of views.py lines 179-184. -/
theorem encodeImage_of_lower (lib : PdfLib) (format : String) (img : Page)
    (hl : pyLower format = format) :
    encodeImage lib format img =
      (if format == "png" then lib.savePNG img 1 else lib.saveJPEG img 95) := by
  unfold encodeImage
  rw [hl]

/-- The candidate scan returns the first existing candidate. -/
theorem scanPaths_eq_find (fs : List String) :
    ∀ l : List String, (scanPaths fs l).1 = l.find? (fun q => fs.contains q)
  | [] => rfl
  | p :: rest => by
    unfold scanPaths
    by_cases h : p ∈ fs
    · simp [h]
    · simp [h, scanPaths_eq_find fs rest]

/-- When the scan hits, the candidates examined are exactly the non-hits
before the hit followed by the hit itself; nothing further is examined. -/
theorem scanPaths_checked (fs : List String) :
    ∀ (l : List String) (p : String), (scanPaths fs l).1 = some p →
      (scanPaths fs l).2 = l.takeWhile (fun q => !(fs.contains q)) ++ [p]
  | [], p, h => by simp [scanPaths] at h
  | q :: rest, p, h => by
    unfold scanPaths at h ⊢
    by_cases hq : q ∈ fs
    · rw [if_pos (by simpa using hq)] at h ⊢
      have hqp : q = p := by simpa using h
      subst hqp
      rw [List.takeWhile_cons_of_neg (by simpa using hq)]
      rfl
    · rw [if_neg (by simpa using hq)] at h ⊢
      have h' : (scanPaths fs rest).1 = some p := h
      rw [List.takeWhile_cons_of_pos (by simpa using hq), List.cons_append]
      show q :: (scanPaths fs rest).2 = _
      rw [scanPaths_checked fs rest p h']

/-- When no candidate exists the scan examines all of them and finds none. -/
theorem scanPaths_none (fs : List String) :
    ∀ l : List String, (∀ q ∈ l, fs.contains q = false) →
      scanPaths fs l = (none, l)
  | [], _ => rfl
  | q :: rest, h => by
    have hq : fs.contains q = false := h q (by simp)
    unfold scanPaths
    rw [if_neg (by simpa using hq)]
    rw [scanPaths_none fs rest (fun r hr => h r (List.mem_cons_of_mem q hr))]

/-- The zip loop, when it succeeds, produces one entry per page, named by
the 1-based page index (offset by the starting index) and carrying the
per-page encoding. -/
theorem zipEntries_spec (lib : PdfLib) (format : String) :
    ∀ (pages : List Page) (i : Nat) (es : List (String × Bytes)),
      zipEntries lib format i pages = .ok es →
      es.length = pages.length ∧
      ∀ (j : Nat) (pj : Page), pages[j]? = some pj →
        ∃ bj, encodeImage lib format pj = .ok bj ∧
          es[j]? = some ("page_" ++ toString (i + j + 1) ++ "." ++ format, bj)
  | [], i, es, h => by
    simp only [zipEntries] at h
    cases h
    simp
  | img :: rest, i, es, h => by
    simp only [zipEntries] at h
    cases hb : encodeImage lib format img with
    | error e => rw [hb] at h; cases h
    | ok b =>
      rw [hb] at h
      cases hr : zipEntries lib format (i + 1) rest with
      | error e => rw [hr] at h; cases h
      | ok tail =>
        rw [hr] at h
        cases h
        obtain ⟨hlen, hspec⟩ := zipEntries_spec lib format rest (i + 1) tail hr
        refine ⟨by simp [hlen], ?_⟩
        intro j pj hj
        cases j with
        | zero =>
          simp only [List.getElem?_cons_zero, Option.some.injEq] at hj
          subst hj
          exact ⟨b, hb, by simp⟩
        | succ j =>
          simp only [List.getElem?_cons_succ] at hj ⊢
          obtain ⟨bj, hbj, hes⟩ := hspec j pj hj
          refine ⟨bj, hbj, ?_⟩
          have harith : i + 1 + j + 1 = i + (j + 1) + 1 := by omega
          rw [harith] at hes
          exact hes

/-- A first attempt that succeeds short-circuits the retry. -/
theorem rasterize_first_ok (lib : PdfLib) (content : Bytes) (format : String)
    (loc : Option String) (images : List Page)
    (h : lib.convert_from_bytes content (firstOptions format loc) = .ok images) :
    rasterize lib content format loc = (.ok images, [firstOptions format loc]) := by
  simp only [rasterize, h]

/-- A first attempt that raises is followed by exactly one retry. -/
theorem rasterize_second_ok (lib : PdfLib) (content : Bytes) (format : String)
    (loc : Option String) (e : PyErr) (images : List Page)
    (h1 : lib.convert_from_bytes content (firstOptions format loc) = .error e)
    (h2 : lib.convert_from_bytes content (secondOptions format loc) = .ok images) :
    rasterize lib content format loc =
      (.ok images, [firstOptions format loc, secondOptions format loc]) := by
  simp only [rasterize, h1, h2]

/-- When both attempts raise, rasterization reports failure after exactly
two calls. -/
theorem rasterize_both_fail (lib : PdfLib) (content : Bytes) (format : String)
    (loc : Option String) (e1 e2 : PyErr)
    (h1 : lib.convert_from_bytes content (firstOptions format loc) = .error e1)
    (h2 : lib.convert_from_bytes content (secondOptions format loc) = .error e2) :
    rasterize lib content format loc =
      (.error (), [firstOptions format loc, secondOptions format loc]) := by
  simp only [rasterize, h1, h2]

/-- Reduction of the POST handler on the packaging-success path. -/
theorem post_of_pack_ok (base : String) (lib : PdfLib) (sys : Sys)
    (req : PdfRequest) (pdf_content : Bytes) (format : String)
    (loc : Option String) (images : List Page) (tr : List ConvOptions)
    (resp : Response)
    (hpdf : lookupField req.files "pdf" = some pdf_content)
    (hfmt : format = pyLower ((lookupField req.post "format").getD "jpg"))
    (hloc : loc = verifyPoppler (resolvePoppler base sys).2
      (resolvePoppler base sys).1)
    (hconv : rasterize lib pdf_content format loc = (.ok images, tr))
    (hpack : packageImages lib format images = .ok resp) :
    PdfToJpgView_post base lib sys req = (resp, (resolvePoppler base sys).2, tr) := by
  subst hfmt hloc
  simp only [PdfToJpgView_post, pdfPostBody, hpdf, hconv, hpack]

/-- Reduction of the POST handler when packaging raises a KeyError: the
outer KeyError handler answers. -/
theorem post_of_pack_keyError (base : String) (lib : PdfLib) (sys : Sys)
    (req : PdfRequest) (pdf_content : Bytes) (format : String)
    (loc : Option String) (images : List Page) (tr : List ConvOptions)
    (m : String)
    (hpdf : lookupField req.files "pdf" = some pdf_content)
    (hfmt : format = pyLower ((lookupField req.post "format").getD "jpg"))
    (hloc : loc = verifyPoppler (resolvePoppler base sys).2
      (resolvePoppler base sys).1)
    (hconv : rasterize lib pdf_content format loc = (.ok images, tr))
    (hpack : packageImages lib format images = .error (.keyError m)) :
    PdfToJpgView_post base lib sys req =
      ({ status := 400, body := .text noPdfMsg }, (resolvePoppler base sys).2, tr) := by
  subst hfmt hloc
  simp only [PdfToJpgView_post, pdfPostBody, hpdf, hconv, hpack]

/-- Reduction of the POST handler when both rasterization attempts raise. -/
theorem post_of_raster_fail (base : String) (lib : PdfLib) (sys : Sys)
    (req : PdfRequest) (pdf_content : Bytes) (format : String)
    (loc : Option String) (tr : List ConvOptions)
    (hpdf : lookupField req.files "pdf" = some pdf_content)
    (hfmt : format = pyLower ((lookupField req.post "format").getD "jpg"))
    (hloc : loc = verifyPoppler (resolvePoppler base sys).2
      (resolvePoppler base sys).1)
    (hconv : rasterize lib pdf_content format loc = (.error (), tr)) :
    PdfToJpgView_post base lib sys req =
      ({ status := 500, body := .text corruptMsg },
       (resolvePoppler base sys).2, tr) := by
  subst hfmt hloc
  simp only [PdfToJpgView_post, pdfPostBody, hpdf, hconv]

/-- Reduction of the POST handler when the pdf field is missing. -/
theorem post_missing_pdf (base : String) (lib : PdfLib) (sys : Sys)
    (req : PdfRequest)
    (hpdf : lookupField req.files "pdf" = none) :
    PdfToJpgView_post base lib sys req =
      ({ status := 400, body := .text noPdfMsg }, sys, []) := by
  simp only [PdfToJpgView_post, pdfPostBody, hpdf]

/-- A KeyError escaping the try body always lands in the KeyError handler. -/
theorem post_of_body_keyError (base : String) (lib : PdfLib) (sys : Sys)
    (req : PdfRequest) (m : String)
    (h : (pdfPostBody base lib sys req).1 = .error (.keyError m)) :
    (PdfToJpgView_post base lib sys req).1 =
      { status := 400, body := .text noPdfMsg } := by
  simp only [PdfToJpgView_post, h]

/-- With the pdf field present, the handler state and call trace are those
of the poppler resolution and the rasterization step, on every path. -/
theorem post_state_trace (base : String) (lib : PdfLib) (sys : Sys)
    (req : PdfRequest) (pdf_content : Bytes) (format : String)
    (loc : Option String)
    (hpdf : lookupField req.files "pdf" = some pdf_content)
    (hfmt : format = pyLower ((lookupField req.post "format").getD "jpg"))
    (hloc : loc = verifyPoppler (resolvePoppler base sys).2
      (resolvePoppler base sys).1) :
    (PdfToJpgView_post base lib sys req).2.2 =
      (rasterize lib pdf_content format loc).2 ∧
    (PdfToJpgView_post base lib sys req).2.1 = (resolvePoppler base sys).2 := by
  subst hfmt hloc
  simp only [PdfToJpgView_post, pdfPostBody, hpdf]
  rcases hc : rasterize lib pdf_content
      (pyLower ((lookupField req.post "format").getD "jpg"))
      (verifyPoppler (resolvePoppler base sys).2 (resolvePoppler base sys).1)
    with ⟨res, tr⟩
  cases res with
  | ok images =>
    cases hp : packageImages lib
        (pyLower ((lookupField req.post "format").getD "jpg")) images with
    | ok resp => simp [hp]
    | error e => cases e <;> simp [hp]
  | error u => simp

/-! The claims. -/

/-- Claim C8: a HEAD request to the document-conversion route returns
HTTP 200 with an empty body, makes no conversion call and leaves the
process state unchanged, whatever the toolchain situation is. -/
theorem C8_head_probe (sys : Sys) (req : PdfRequest) :
    PdfToJpgView_head sys req = ({ status := 200, body := .text "" }, sys, []) :=
  rfl

/-- Claim C5: a POST whose multipart body lacks the pdf field is answered
with HTTP 400 and the body No PDF file uploaded, without any conversion
call and without touching the process state. -/
theorem C5_missing_pdf_field (base : String) (lib : PdfLib) (sys : Sys)
    (req : PdfRequest)
    (h : lookupField req.files "pdf" = none) :
    PdfToJpgView_post base lib sys req =
      ({ status := 400, body := .text noPdfMsg }, sys, []) :=
  post_missing_pdf base lib sys req h

/-- Closed instance of C5 at a request uploading no pdf field. -/
theorem C5_missing_pdf_field_witness :
    PdfToJpgView_post "BASE" (pdfLibOk [5]) sysEmpty reqNoPdf =
      ({ status := 400, body := .text noPdfMsg }, sysEmpty, []) :=
  C5_missing_pdf_field "BASE" (pdfLibOk [5]) sysEmpty reqNoPdf (by decide)

/-- Claim C6: the Image→Document handler rejects an empty upload list with
a 400 and performs no conversion, surfaces any assembly exception as a 500
carrying the underlying error text in the body, and otherwise returns the
assembled document with the PDF content type and the converted.pdf
attachment name, assembly receiving the images in upload order. -/
theorem C6_jpg_to_pdf (lib : ImgLib) (req : JpgRequest) :
    (req.images = [] →
       JpgToPdfView_post lib req =
         ({ status := 400, body := .text "No images provided" }, [])) ∧
    (∀ e, req.images ≠ [] → lib.img2pdf_convert req.images = .error e →
       JpgToPdfView_post lib req =
         ({ status := 500, body := .text ("Conversion failed: " ++ e.str) },
          [req.images])) ∧
    (∀ pdf_bytes, req.images ≠ [] → lib.img2pdf_convert req.images = .ok pdf_bytes →
       JpgToPdfView_post lib req =
         ({ status := 200, body := .bytes pdf_bytes,
            contentType := some "application/pdf",
            contentDisposition := some "attachment; filename=\"converted.pdf\"" },
          [req.images])) := by
  refine ⟨?_, ?_, ?_⟩
  · intro h
    simp [JpgToPdfView_post, h]
  · intro e hne he
    simp only [JpgToPdfView_post]
    rw [if_neg (by simp [hne]), he]
  · intro pdf_bytes hne hok
    simp only [JpgToPdfView_post]
    rw [if_neg (by simp [hne]), hok]

/-- Closed instance of C6 exercising its three branches. -/
theorem C6_jpg_to_pdf_witness :
    JpgToPdfView_post imgLibOk jpgReqEmpty =
      ({ status := 400, body := .text "No images provided" }, []) ∧
    JpgToPdfView_post imgLibFail jpgReqTwo =
      ({ status := 500, body := .text ("Conversion failed: " ++ "boom") },
       [jpgReqTwo.images]) ∧
    JpgToPdfView_post imgLibOk jpgReqTwo =
      ({ status := 200, body := .bytes [0, 1, 2],
         contentType := some "application/pdf",
         contentDisposition := some "attachment; filename=\"converted.pdf\"" },
       [jpgReqTwo.images]) :=
  ⟨(C6_jpg_to_pdf imgLibOk jpgReqEmpty).1 rfl,
   (C6_jpg_to_pdf imgLibFail jpgReqTwo).2.1 (.other "boom") (by decide) rfl,
   (C6_jpg_to_pdf imgLibOk jpgReqTwo).2.2 [0, 1, 2] (by decide) rfl⟩

/-- Claim C2: with the document field present the handler calls the
rasterization routine at most twice: the first call has use_pdftocairo
enabled and the 60-unit timeout; a second call happens exactly when the
first raises, with use_pdftocairo disabled and the same poppler path; no
third call is ever made. -/
theorem C2_two_attempts (base : String) (lib : PdfLib) (sys : Sys)
    (req : PdfRequest) (pdf_content : Bytes) (format : String)
    (loc : Option String)
    (hpdf : lookupField req.files "pdf" = some pdf_content)
    (hfmt : format = pyLower ((lookupField req.post "format").getD "jpg"))
    (hloc : loc = verifyPoppler (resolvePoppler base sys).2
      (resolvePoppler base sys).1) :
    (firstOptions format loc).use_pdftocairo = true ∧
    (firstOptions format loc).timeout = some 60 ∧
    (secondOptions format loc).use_pdftocairo = false ∧
    (secondOptions format loc).poppler_path = (firstOptions format loc).poppler_path ∧
    (∀ images, lib.convert_from_bytes pdf_content (firstOptions format loc) = .ok images →
       (PdfToJpgView_post base lib sys req).2.2 = [firstOptions format loc]) ∧
    (∀ e, lib.convert_from_bytes pdf_content (firstOptions format loc) = .error e →
       (PdfToJpgView_post base lib sys req).2.2 =
         [firstOptions format loc, secondOptions format loc]) := by
  refine ⟨rfl, rfl, rfl, rfl, ?_, ?_⟩
  · intro images h
    have ht := (post_state_trace base lib sys req pdf_content format loc
      hpdf hfmt hloc).1
    rw [ht, rasterize_first_ok lib pdf_content format loc images h]
  · intro e h
    have ht := (post_state_trace base lib sys req pdf_content format loc
      hpdf hfmt hloc).1
    rw [ht]
    cases h2 : lib.convert_from_bytes pdf_content (secondOptions format loc) with
    | ok images => rw [rasterize_second_ok lib pdf_content format loc e images h h2]
    | error e2 => rw [rasterize_both_fail lib pdf_content format loc e e2 h h2]

/-- Closed instance of C2: one call on first-attempt success, exactly two
on first-attempt failure. -/
theorem C2_two_attempts_witness :
    (PdfToJpgView_post "BASE" (pdfLibOk [5]) sysEmpty reqPdf).2.2 =
      [firstOptions "jpg" none] ∧
    (PdfToJpgView_post "BASE" (pdfLibFail (.other "x")) sysEmpty reqPdf).2.2 =
      [firstOptions "jpg" none, secondOptions "jpg" none] :=
  ⟨(C2_two_attempts "BASE" (pdfLibOk [5]) sysEmpty reqPdf [9] "jpg" none
      rfl (by decide) (by decide)).2.2.2.2.1 [5] rfl,
   (C2_two_attempts "BASE" (pdfLibFail (.other "x")) sysEmpty reqPdf [9] "jpg" none
      rfl (by decide) (by decide)).2.2.2.2.2 (.other "x") rfl⟩

/-- Claim C1: on successful rasterization, one page yields a 200 whose
body is that page encoded per the requested format (PNG at compress
level 1, otherwise JPEG at quality 95), with content type image/{format}
and attachment name converted.{format}; several pages yield a 200 zip
archive with one entry per page named page_{i}.{format} in 1-based page
order, content type application/zip and attachment name converted.zip. -/
theorem C1_packaging (base : String) (lib : PdfLib) (sys : Sys)
    (req : PdfRequest) (pdf_content : Bytes) (format : String)
    (loc : Option String) (images : List Page) (tr : List ConvOptions)
    (hpdf : lookupField req.files "pdf" = some pdf_content)
    (hfmt : format = pyLower ((lookupField req.post "format").getD "jpg"))
    (hloc : loc = verifyPoppler (resolvePoppler base sys).2
      (resolvePoppler base sys).1)
    (hconv : rasterize lib pdf_content format loc = (.ok images, tr)) :
    (∀ img b, images = [img] →
       (if format == "png" then lib.savePNG img 1 else lib.saveJPEG img 95) = .ok b →
       (PdfToJpgView_post base lib sys req).1 =
         { status := 200, body := .bytes b,
           contentType := some ("image/" ++ format),
           contentDisposition :=
             some ("attachment; filename=\"converted." ++ format ++ "\"") }) ∧
    (∀ es, 2 ≤ images.length → zipEntries lib format 0 images = .ok es →
       (PdfToJpgView_post base lib sys req).1 =
         { status := 200, body := .zip es,
           contentType := some "application/zip",
           contentDisposition := some "attachment; filename=\"converted.zip\"" } ∧
       es.length = images.length ∧
       ∀ (j : Nat) (pj : Page), images[j]? = some pj →
         ∃ bj, (if format == "png" then lib.savePNG pj 1
                else lib.saveJPEG pj 95) = .ok bj ∧
           es[j]? = some ("page_" ++ toString (j + 1) ++ "." ++ format, bj)) := by
  have hl : pyLower format = format := by rw [hfmt]; exact pyLower_idem _
  constructor
  · intro img b himg hb
    subst himg
    have he : encodeImage lib format img = .ok b := by
      rw [encodeImage_of_lower lib format img hl]; exact hb
    have hpack : packageImages lib format [img] = .ok
        { status := 200, body := .bytes b,
          contentType := some ("image/" ++ format),
          contentDisposition :=
            some ("attachment; filename=\"converted." ++ format ++ "\"") } := by
      simp only [packageImages, he]
    rw [post_of_pack_ok base lib sys req pdf_content format loc [img] tr _
      hpdf hfmt hloc hconv hpack]
  · intro es hlen hes
    obtain ⟨a, t, ha⟩ : ∃ a t, images = a :: t := by
      cases images with
      | nil => simp at hlen
      | cons a t => exact ⟨a, t, rfl⟩
    obtain ⟨b2, t2, hb2⟩ : ∃ b2 t2, t = b2 :: t2 := by
      subst ha
      cases t with
      | nil => simp at hlen
      | cons b2 t2 => exact ⟨b2, t2, rfl⟩
    subst hb2
    subst ha
    have hpack : packageImages lib format (a :: b2 :: t2) = .ok
        { status := 200, body := .zip es,
          contentType := some "application/zip",
          contentDisposition := some "attachment; filename=\"converted.zip\"" } := by
      simp only [packageImages, hes]
    refine ⟨?_, ?_, ?_⟩
    · rw [post_of_pack_ok base lib sys req pdf_content format loc _ tr _
        hpdf hfmt hloc hconv hpack]
    · exact (zipEntries_spec lib format _ 0 es hes).1
    · intro j pj hj
      obtain ⟨bj, hbj, hesj⟩ := (zipEntries_spec lib format _ 0 es hes).2 j pj hj
      refine ⟨bj, ?_, ?_⟩
      · rw [← encodeImage_of_lower lib format pj hl]
        exact hbj
      · simpa using hesj

/-- Closed instance of C1: a one-page document as a single JPEG, a
three-page document as a three-entry zip named in page order. -/
theorem C1_packaging_witness :
    (PdfToJpgView_post "BASE" (pdfLibOk [5]) sysEmpty reqPdf).1 =
      { status := 200, body := .bytes [1, 5, 95],
        contentType := some "image/jpg",
        contentDisposition := some "attachment; filename=\"converted.jpg\"" } ∧
    (PdfToJpgView_post "BASE" (pdfLibOk [5, 6, 7]) sysEmpty reqPng).1 =
      { status := 200,
        body := .zip [("page_1.png", [0, 5, 1]), ("page_2.png", [0, 6, 1]),
                      ("page_3.png", [0, 7, 1])],
        contentType := some "application/zip",
        contentDisposition := some "attachment; filename=\"converted.zip\"" } := by
  constructor
  · exact (C1_packaging "BASE" (pdfLibOk [5]) sysEmpty reqPdf [9] "jpg" none
      [5] [firstOptions "jpg" none] rfl (by decide) (by decide) (by decide)).1
      5 [1, 5, 95] rfl (by decide)
  · exact ((C1_packaging "BASE" (pdfLibOk [5, 6, 7]) sysEmpty reqPng [9] "png" none
      [5, 6, 7] [firstOptions "png" none] rfl (by decide) (by decide) (by decide)).2
      [("page_1.png", [0, 5, 1]), ("page_2.png", [0, 6, 1]), ("page_3.png", [0, 7, 1])]
      (by decide) (by decide)).1

/-- Claim C3 fails on the code: when rasterization succeeds with zero
pages the handler does answer 500, but with the no-images body, which is
not the corruption/protection/toolchain message the claim requires. -/
theorem C3_counterexample :
    (pdfLibOk []).convert_from_bytes [9] (firstOptions "jpg" none) = .ok [] ∧
    (PdfToJpgView_post "BASE" (pdfLibOk []) sysEmpty reqPdf).1.status = 500 ∧
    (PdfToJpgView_post "BASE" (pdfLibOk []) sysEmpty reqPdf).1.body =
      .text noImagesMsg ∧
    (PdfToJpgView_post "BASE" (pdfLibOk []) sysEmpty reqPdf).1.body ≠
      .text corruptMsg := by
  decide

/-- Claim C3 amended: if the second rasterization attempt also raises, the
handler answers 500 with the corruption/protection/toolchain message; if
rasterization succeeds but yields zero pages (on either attempt), it
answers 500 with the distinct no-images-extracted message. -/
theorem C3_failure_responses (base : String) (lib : PdfLib) (sys : Sys)
    (req : PdfRequest) (pdf_content : Bytes) (format : String)
    (loc : Option String)
    (hpdf : lookupField req.files "pdf" = some pdf_content)
    (hfmt : format = pyLower ((lookupField req.post "format").getD "jpg"))
    (hloc : loc = verifyPoppler (resolvePoppler base sys).2
      (resolvePoppler base sys).1) :
    (∀ e1 e2,
       lib.convert_from_bytes pdf_content (firstOptions format loc) = .error e1 →
       lib.convert_from_bytes pdf_content (secondOptions format loc) = .error e2 →
       (PdfToJpgView_post base lib sys req).1 =
         { status := 500, body := .text corruptMsg }) ∧
    (lib.convert_from_bytes pdf_content (firstOptions format loc) = .ok [] →
       (PdfToJpgView_post base lib sys req).1 =
         { status := 500, body := .text noImagesMsg }) ∧
    (∀ e1,
       lib.convert_from_bytes pdf_content (firstOptions format loc) = .error e1 →
       lib.convert_from_bytes pdf_content (secondOptions format loc) = .ok [] →
       (PdfToJpgView_post base lib sys req).1 =
         { status := 500, body := .text noImagesMsg }) := by
  refine ⟨?_, ?_, ?_⟩
  · intro e1 e2 h1 h2
    rw [post_of_raster_fail base lib sys req pdf_content format loc _
      hpdf hfmt hloc (rasterize_both_fail lib pdf_content format loc e1 e2 h1 h2)]
  · intro h1
    rw [post_of_pack_ok base lib sys req pdf_content format loc [] _ _
      hpdf hfmt hloc (rasterize_first_ok lib pdf_content format loc [] h1) rfl]
  · intro e1 h1 h2
    rw [post_of_pack_ok base lib sys req pdf_content format loc [] _ _
      hpdf hfmt hloc (rasterize_second_ok lib pdf_content format loc e1 [] h1 h2) rfl]

/-- Closed instance of the amended C3 on its two branches. -/
theorem C3_failure_responses_witness :
    (PdfToJpgView_post "BASE" (pdfLibFail (.other "x")) sysEmpty reqPdf).1 =
      { status := 500, body := .text corruptMsg } ∧
    (PdfToJpgView_post "BASE" (pdfLibOk []) sysEmpty reqPdf).1 =
      { status := 500, body := .text noImagesMsg } :=
  ⟨(C3_failure_responses "BASE" (pdfLibFail (.other "x")) sysEmpty reqPdf [9] "jpg"
      none rfl (by decide) (by decide)).1 (.other "x") (.other "x") rfl rfl,
   (C3_failure_responses "BASE" (pdfLibOk []) sysEmpty reqPdf [9] "jpg"
      none rfl (by decide) (by decide)).2.1 rfl⟩

/-- Claim C4 fails on the code: with a cached location pointing to a
missing path the request does proceed without a toolchain path, but the
process-wide configuration is not cleared — POPPLER_PATH still holds the
stale value after the request (views.py lines 126-128 clear only a local
variable). -/
theorem C4_counterexample :
    strTruthy sysStale.env = true ∧
    sysStale.fs.contains "stale" = false ∧
    (PdfToJpgView_post "BASE" (pdfLibOk [5]) sysStale reqPdf).2.2 =
      [firstOptions "jpg" none] ∧
    (PdfToJpgView_post "BASE" (pdfLibOk [5]) sysStale reqPdf).2.1.env =
      some "stale" ∧
    (PdfToJpgView_post "BASE" (pdfLibOk [5]) sysStale reqPdf).2.1.env ≠ none := by
  decide

/-- Claim C4 amended: when the cached POPPLER_PATH points to a missing
path, only the handler-local location is discarded — every rasterization
call of the request is then made without a poppler path — while the
process-wide POPPLER_PATH keeps the stale value unchanged. -/
theorem C4_stale_cleared_locally (base : String) (lib : PdfLib) (sys : Sys)
    (req : PdfRequest) (pdf_content : Bytes) (p : String)
    (hpdf : lookupField req.files "pdf" = some pdf_content)
    (henv : sys.env = some p)
    (htru : strTruthy (some p) = true)
    (hmiss : sys.fs.contains p = false) :
    verifyPoppler (resolvePoppler base sys).2 (resolvePoppler base sys).1 = none ∧
    (PdfToJpgView_post base lib sys req).2.1 = sys ∧
    ∀ o ∈ (PdfToJpgView_post base lib sys req).2.2, o.poppler_path = none := by
  have hres : resolvePoppler base sys = (some p, sys) := by
    unfold resolvePoppler
    rw [henv, if_pos htru]
  have hver : verifyPoppler (resolvePoppler base sys).2
      (resolvePoppler base sys).1 = none := by
    rw [hres]
    unfold verifyPoppler
    rw [if_pos (by
      simp only [Option.getD_some, htru, hmiss, Bool.not_false, Bool.true_and])]
  refine ⟨hver, ?_, ?_⟩
  · have h2 := (post_state_trace base lib sys req pdf_content
      (pyLower ((lookupField req.post "format").getD "jpg"))
      (verifyPoppler (resolvePoppler base sys).2 (resolvePoppler base sys).1)
      hpdf rfl rfl).2
    rw [h2, hres]
  · intro o ho
    have h1 := (post_state_trace base lib sys req pdf_content
      (pyLower ((lookupField req.post "format").getD "jpg"))
      (verifyPoppler (resolvePoppler base sys).2 (resolvePoppler base sys).1)
      hpdf rfl rfl).1
    rw [h1, hver] at ho
    cases h1c : lib.convert_from_bytes pdf_content
        (firstOptions (pyLower ((lookupField req.post "format").getD "jpg")) none) with
    | ok images =>
      rw [rasterize_first_ok _ _ _ _ _ h1c] at ho
      simp only [List.mem_singleton] at ho
      subst ho
      rfl
    | error e =>
      cases h2c : lib.convert_from_bytes pdf_content
          (secondOptions (pyLower ((lookupField req.post "format").getD "jpg")) none) with
      | ok images =>
        rw [rasterize_second_ok _ _ _ _ _ _ h1c h2c] at ho
        simp only [List.mem_cons, List.mem_singleton, List.not_mem_nil, or_false] at ho
        rcases ho with ho | ho <;> subst ho <;> rfl
      | error e2 =>
        rw [rasterize_both_fail _ _ _ _ _ _ h1c h2c] at ho
        simp only [List.mem_cons, List.mem_singleton, List.not_mem_nil, or_false] at ho
        rcases ho with ho | ho <;> subst ho <;> rfl

/-- Closed instance of the amended C4 at a stale cached path. -/
theorem C4_stale_cleared_locally_witness :
    verifyPoppler (resolvePoppler "BASE" sysStale).2
      (resolvePoppler "BASE" sysStale).1 = none ∧
    (PdfToJpgView_post "BASE" (pdfLibOk [5]) sysStale reqPdf).2.1 = sysStale := by
  have h := C4_stale_cleared_locally "BASE" (pdfLibOk [5]) sysStale reqPdf [9]
    "stale" rfl rfl (by decide) (by decide)
  exact ⟨h.1, h.2.1⟩

/-- Claim C7: with POPPLER_PATH unset the locator checks the fixed
candidate list in order and selects the first existing directory, checking
no further candidate after a match; if none exists it runs the installer
synchronously and, on a zero exit status whose output carries the marker,
uses the path parsed after the marker, while installer failure or
malformed output (or a missing installer script, which prevents the run)
leaves the location unset. -/
theorem C7_locator (base : String) (fs : List String) (run : RunResult) :
    (∀ p, (possible_paths base).find? (fun q => fs.contains q) = some p →
       moduleSetup base fs none run =
         { env := some p, installerRan := false,
           checked := (possible_paths base).takeWhile
             (fun q => !(fs.contains q)) ++ [p] }) ∧
    ((∀ q ∈ possible_paths base, fs.contains q = false) →
       fs.contains (install_script base) = true →
       moduleSetup base fs none run =
         { env := if run.returncode == 0 && containsSub run.stdout popplerMarker
                  then extractPopplerPath run.stdout else none,
           installerRan := true, checked := possible_paths base }) ∧
    ((∀ q ∈ possible_paths base, fs.contains q = false) →
       fs.contains (install_script base) = false →
       moduleSetup base fs none run =
         { env := none, installerRan := false,
           checked := possible_paths base }) := by
  refine ⟨?_, ?_, ?_⟩
  · intro p hp
    have hs1 : (scanPaths fs (possible_paths base)).1 = some p := by
      rw [scanPaths_eq_find]
      exact hp
    have hs2 := scanPaths_checked fs (possible_paths base) p hs1
    unfold moduleSetup
    rw [if_neg (by decide)]
    simp only [hs1, hs2]
  · intro hall hscript
    have hscan := scanPaths_none fs (possible_paths base) hall
    unfold moduleSetup
    rw [if_neg (by decide)]
    simp only [hscan]
    rw [if_pos hscript]
    by_cases hc : (run.returncode == 0 && containsSub run.stdout popplerMarker) = true
    · rw [if_pos hc, if_pos hc]
      cases hx : extractPopplerPath run.stdout with
      | some p => simp [hx]
      | none => simp [hx]
    · rw [if_neg hc, if_neg hc]
  · intro hall hscript
    have hscan := scanPaths_none fs (possible_paths base) hall
    unfold moduleSetup
    rw [if_neg (by decide)]
    simp only [hscan]
    rw [if_neg (by rw [hscript]; exact Bool.false_ne_true)]

/-- Closed instances of C7: a hit on the second candidate stops the scan
before the remaining candidates, a successful installer run installs the
parsed path, a failing one and a missing script leave the location
unset. -/
theorem C7_locator_witness :
    moduleSetup "BASE" ["BASE/poppler/Library/bin"] none runOk =
      { env := some "BASE/poppler/Library/bin", installerRan := false,
        checked := ["BASE/poppler/poppler-23.11.0/Library/bin",
                    "BASE/poppler/Library/bin"] } ∧
    moduleSetup "BASE" ["BASE/install_poppler.py"] none runOk =
      { env := some "/opt/poppler/bin", installerRan := true,
        checked := possible_paths "BASE" } ∧
    moduleSetup "BASE" ["BASE/install_poppler.py"] none runFail =
      { env := none, installerRan := true, checked := possible_paths "BASE" } ∧
    moduleSetup "BASE" [] none runOk =
      { env := none, installerRan := false, checked := possible_paths "BASE" } := by
  refine ⟨?_, ?_, ?_, ?_⟩
  · exact ((C7_locator "BASE" ["BASE/poppler/Library/bin"] runOk).1
      "BASE/poppler/Library/bin" (by decide)).trans (by decide)
  · exact ((C7_locator "BASE" ["BASE/install_poppler.py"] runOk).2.1
      (by decide) (by decide)).trans (by decide)
  · exact ((C7_locator "BASE" ["BASE/install_poppler.py"] runFail).2.1
      (by decide) (by decide)).trans (by decide)
  · exact (C7_locator "BASE" [] runOk).2.2 (by decide) (by decide)

/-- Claim C9: the format field is not validated: any client value whose
lowercasing differs from png selects the JPEG encoder at quality 95, and
the content type image/{format} and attachment name converted.{format}
are built from that lowercased client-supplied value as is. -/
theorem C9_format_not_validated (base : String) (lib : PdfLib) (sys : Sys)
    (req : PdfRequest) (pdf_content : Bytes) (s : String)
    (loc : Option String) (img : Page) (b : Bytes) (tr : List ConvOptions)
    (hpdf : lookupField req.files "pdf" = some pdf_content)
    (hs : lookupField req.post "format" = some s)
    (hnp : pyLower s ≠ "png")
    (hloc : loc = verifyPoppler (resolvePoppler base sys).2
      (resolvePoppler base sys).1)
    (hconv : rasterize lib pdf_content (pyLower s) loc = (.ok [img], tr))
    (hjpeg : lib.saveJPEG img 95 = .ok b) :
    (PdfToJpgView_post base lib sys req).1 =
      { status := 200, body := .bytes b,
        contentType := some ("image/" ++ pyLower s),
        contentDisposition :=
          some ("attachment; filename=\"converted." ++ pyLower s ++ "\"") } := by
  have hfmt : pyLower s = pyLower ((lookupField req.post "format").getD "jpg") := by
    rw [hs]
    rfl
  have he : encodeImage lib (pyLower s) img = .ok b := by
    unfold encodeImage
    rw [pyLower_idem s, if_neg (by simp [hnp])]
    exact hjpeg
  have hpack : packageImages lib (pyLower s) [img] = .ok
      { status := 200, body := .bytes b,
        contentType := some ("image/" ++ pyLower s),
        contentDisposition :=
          some ("attachment; filename=\"converted." ++ pyLower s ++ "\"") } := by
    simp only [packageImages, he]
  rw [post_of_pack_ok base lib sys req pdf_content (pyLower s) loc [img] tr _
    hpdf hfmt hloc hconv hpack]

/-- Closed instance of C9 at the arbitrary format value WEBP: the body is
the JPEG encoding while the headers carry webp. -/
theorem C9_format_not_validated_witness :
    (PdfToJpgView_post "BASE" (pdfLibOk [5]) sysEmpty reqWebp).1 =
      { status := 200, body := .bytes [1, 5, 95],
        contentType := some "image/webp",
        contentDisposition :=
          some "attachment; filename=\"converted.webp\"" } :=
  C9_format_not_validated "BASE" (pdfLibOk [5]) sysEmpty reqWebp [9] "WEBP"
    none 5 [1, 5, 95] [firstOptions "webp" none]
    rfl rfl (by decide) (by decide) (by decide) rfl

/-- Claim C10 fails on the code: a KeyError raised inside the
rasterization attempts is caught by the inner generic handler, so the
response is the 500 with the corruption message, not the 400 of the outer
KeyError handler. -/
theorem C10_counterexample :
    (pdfLibFail (.keyError "k")).convert_from_bytes [9]
      (firstOptions "jpg" none) = .error (.keyError "k") ∧
    (PdfToJpgView_post "BASE" (pdfLibFail (.keyError "k")) sysEmpty reqPdf).1 =
      { status := 500, body := .text corruptMsg } ∧
    (PdfToJpgView_post "BASE" (pdfLibFail (.keyError "k")) sysEmpty
      reqPdf).1.status ≠ 400 := by
  decide

/-- Claim C10 amended: every KeyError that reaches the outer handler — the
missing-field lookup or a KeyError raised during page encoding — produces
the 400 with body No PDF file uploaded, the KeyError handler preceding and
shadowing the generic 500 handler; but a KeyError raised inside the
rasterization attempts is caught by the inner generic handler and never
reaches the outer one. -/
theorem C10_keyError_routing (base : String) (lib : PdfLib) (sys : Sys)
    (req : PdfRequest) :
    (∀ m, (pdfPostBody base lib sys req).1 = .error (.keyError m) →
       (PdfToJpgView_post base lib sys req).1 =
         { status := 400, body := .text noPdfMsg }) ∧
    (∀ pdf_content format loc img tr m,
       lookupField req.files "pdf" = some pdf_content →
       format = pyLower ((lookupField req.post "format").getD "jpg") →
       loc = verifyPoppler (resolvePoppler base sys).2
         (resolvePoppler base sys).1 →
       rasterize lib pdf_content format loc = (.ok [img], tr) →
       encodeImage lib format img = .error (.keyError m) →
       (PdfToJpgView_post base lib sys req).1 =
         { status := 400, body := .text noPdfMsg }) ∧
    (∀ pdf_content format loc m1 m2,
       lookupField req.files "pdf" = some pdf_content →
       format = pyLower ((lookupField req.post "format").getD "jpg") →
       loc = verifyPoppler (resolvePoppler base sys).2
         (resolvePoppler base sys).1 →
       lib.convert_from_bytes pdf_content (firstOptions format loc) =
         .error (.keyError m1) →
       lib.convert_from_bytes pdf_content (secondOptions format loc) =
         .error (.keyError m2) →
       (PdfToJpgView_post base lib sys req).1 =
         { status := 500, body := .text corruptMsg }) := by
  refine ⟨?_, ?_, ?_⟩
  · intro m h
    exact post_of_body_keyError base lib sys req m h
  · intro pdf_content format loc img tr m hpdf hfmt hloc hconv henc
    have hpack : packageImages lib format [img] = .error (.keyError m) := by
      simp only [packageImages, henc]
    rw [post_of_pack_keyError base lib sys req pdf_content format loc [img] tr m
      hpdf hfmt hloc hconv hpack]
  · intro pdf_content format loc m1 m2 hpdf hfmt hloc h1 h2
    rw [post_of_raster_fail base lib sys req pdf_content format loc _
      hpdf hfmt hloc
      (rasterize_both_fail lib pdf_content format loc _ _ h1 h2)]

/-- Closed instance of the amended C10: a KeyError raised by the page
encoder reaches the outer handler and yields the 400. -/
theorem C10_keyError_routing_witness :
    (PdfToJpgView_post "BASE" (pdfLibSaveKeyErr [5]) sysEmpty reqPdf).1 =
      { status := 400, body := .text noPdfMsg } :=
  (C10_keyError_routing "BASE" (pdfLibSaveKeyErr [5]) sysEmpty reqPdf).2.1
    [9] "jpg" none 5 [firstOptions "jpg" none] "encode"
    rfl (by decide) (by decide) (by decide) (by decide)

end JpgConverter
